import Mathlib

/-!
Shallow embedding of the `python_queue_sender` repository.

The repository contains two variants of a `MessageBus` client:

* `src/common/message_bus.py` — the Azure Service Bus variant (namespace `Az`
  below);
* `src/common/old_message_bus.py` — the RabbitMQ / pika variant (namespace
  `Rmq` below).

Both variants define a decorator `_reconnect_if_required` that runs the
wrapped method, and on a caught exception calls `self.connect()` and then
runs the wrapped method once more.  The Azure variant catches every
`Exception`; the RabbitMQ variant catches only
`pika.exceptions.StreamLostError`.  The decorator is embedded once, as the
combinator `reconnect_if_required`, parameterised by the predicate that
says which errors the `except` clause catches.

The broker / SDK transport is external to the repository, so its behaviour
is a parameter of the embedding (a `World` of oracles saying which
transport attempts succeed).  Client methods are state transformers
`St → Res St` returning an `Except` result (normal return vs raised
exception), the successor state, and a trace of observable transport
events.  Bookkeeping counters (`nConnect`, `nDecl`, `nPub`, `nSession`)
exist only to index the oracles by attempt number; they are not program
state.

Transport modelling notes, used where the Python delegates to the SDK:

* pika: `Channel.close()` on an already-closed channel raises
  `ChannelWrongStateError`, and so does any channel operation
  (`queue_declare`, `basic_publish`, ...) on a closed channel;
  `StreamLostError` is the transport-loss exception.  Calling a method on
  `self.channel = None` raises `AttributeError`.
* Redeclaring an existing queue with identical properties
  (`queue_declare(queue, durable=True)`) succeeds and leaves the broker
  state unchanged; the broker's declared-queue set is the `queues` field.
* A delivery handle (delivery tag / received message) is settled against
  the link of the connection that issued it — `acknowledge_message` and
  `not_acknowledge_message` use the receiver passed as an argument, never
  `self.servicebus_client` — and `connect()` only reassigns the client
  attribute, it never closes the previous connection.  Whether the
  issuing link is still alive is therefore independent transport state,
  the oracle `linkAlive`, indexed by the connection generation.
-/

/-- Observable transport events emitted by the client operations. -/
inductive Ev : Type where
  | connected : Ev
  | connectFailed : Ev
  | declared : String → Ev
  | declFailed : String → Ev
  | published : String → String → Ev
  | pubFailed : String → String → Ev
  | handled : Nat → Ev
  | handlerFailed : Nat → Ev
  | completed : Nat → Nat → Ev
  | completeFailed : Nat → Nat → Ev
  | abandoned : Nat → Nat → Ev
  | abandonFailed : Nat → Nat → Ev
  | deadlettered : Nat → Nat → Ev
  | deadletterFailed : Nat → Nat → Ev
  | closedChannel : Ev
  deriving DecidableEq, Repr

/-- The exceptions that can cross a method boundary in the two variants.
`streamLost` is pika's `StreamLostError` (the only one the RabbitMQ
decorator catches), `chanWrongState` is pika's `ChannelWrongStateError`,
`attrNone` is Python's `AttributeError` on a `None` attribute, `connErr`
is a failure raised by `connect()`, `pubErr` and `ackErr` are the Azure
SDK failures of a publish and of a settle (complete / abandon /
dead-letter) respectively, and `handlerErr` is an exception raised by
the externally supplied consumer callback. -/
inductive Err : Type where
  | connErr : Err
  | streamLost : Err
  | chanWrongState : Err
  | attrNone : Err
  | pubErr : Err
  | ackErr : Err
  | handlerErr : Err
  deriving DecidableEq, Repr

/-- Is the exception a pika `StreamLostError`?  This is the predicate of
the `except exceptions.StreamLostError` clause in `old_message_bus.py`. -/
def Err.isStreamLost : Err → Bool
  | .streamLost => true
  | _ => false

/-- Result of running one client operation: the Python return value or
raised exception, the successor client state, and the emitted transport
events. -/
structure Res (σ : Type) : Type where
  res : Except Err Unit
  st : σ
  tr : List Ev
  deriving Repr

/-- Embedding of the `_reconnect_if_required` decorator (both variants):
run the wrapped method; if it raises an exception caught by the `except`
clause (`retryable`), call `self.connect()` and run the wrapped method
once more.  An exception raised by `connect()` itself, by the retry, or
not caught by the `except` clause, propagates to the caller. -/
def reconnect_if_required {σ : Type} (retryable : Err → Bool)
    (cn : σ → Res σ) (op : σ → Res σ) (s : σ) : Res σ :=
  match (op s).res with
  | .ok _ => op s
  | .error e =>
    if retryable e then
      match (cn (op s).st).res with
      | .error ce => ⟨.error ce, (cn (op s).st).st, (op s).tr ++ (cn (op s).st).tr⟩
      | .ok _ =>
        ⟨(op (cn (op s).st).st).res, (op (cn (op s).st).st).st,
          (op s).tr ++ (cn (op s).st).tr ++ (op (cn (op s).st).st).tr⟩
    else op s

/-- Sequential composition of two statements: run `a`; if it raises, the
exception propagates, otherwise run `b`. -/
def andThen {σ : Type} (a b : σ → Res σ) (s : σ) : Res σ :=
  match (a s).res with
  | .error e => ⟨.error e, (a s).st, (a s).tr⟩
  | .ok _ =>
    ⟨(b (a s).st).res, (b (a s).st).st, (a s).tr ++ (b (a s).st).tr⟩

namespace Rmq

/-- A pika channel as held in `self.channel`: tagged with the generation
of the `connect()` call that created it, and open until closed. -/
structure Chan : Type where
  gen : Nat
  isOpen : Bool
  deriving DecidableEq, Repr

/-- State of the RabbitMQ `MessageBus` object plus the broker-visible
queue set.  `channel` mirrors `self.channel` (initially `None`).
`queues` is the set of queues declared durable on the broker.
`nextGen`, `nConnect`, `nDecl`, `nPub` are bookkeeping: the generation
supply and attempt counters indexing the transport oracles. -/
structure St : Type where
  channel : Option Chan
  nextGen : Nat
  nConnect : Nat
  nDecl : Nat
  nPub : Nat
  queues : List String
  deriving DecidableEq, Repr

/-- Transport oracles for the RabbitMQ variant: the verdict of the n-th
connection attempt, the n-th `queue_declare` attempt and the n-th
`basic_publish` attempt.  A failed declare or publish raises
`StreamLostError`; a failed connect raises a connection error (which is
not a `StreamLostError`). -/
structure World : Type where
  connectOk : Nat → Bool
  declOk : Nat → Bool
  pubOk : Nat → Bool

/-- Embedding of `MessageBus.connect` (old_message_bus.py): build a fresh
`BlockingConnection` and channel and store it in `self.channel`,
replacing whatever was there; on failure the exception propagates and
`self.channel` is left unchanged. -/
def connect (w : World) (s : St) : Res St :=
  if w.connectOk s.nConnect then
    ⟨.ok (), { s with channel := some ⟨s.nextGen, true⟩, nextGen := s.nextGen + 1, nConnect := s.nConnect + 1 }, [.connected]⟩
  else
    ⟨.error .connErr, { s with nConnect := s.nConnect + 1 }, [.connectFailed]⟩

/-- Embedding of `self.channel.queue_declare(queue=queue, durable=True)`:
`AttributeError` when `self.channel` is `None`, `ChannelWrongStateError`
on a closed channel, otherwise one transport attempt which on success
adds the queue to the broker's declared set (a redeclaration leaves the
set unchanged) and on failure raises `StreamLostError`. -/
def queue_declare (w : World) (q : String) (s : St) : Res St :=
  match s.channel with
  | none => ⟨.error .attrNone, s, []⟩
  | some c =>
    if c.isOpen then
      if w.declOk s.nDecl then
        ⟨.ok (), { s with nDecl := s.nDecl + 1, queues := if q ∈ s.queues then s.queues else q :: s.queues }, [.declared q]⟩
      else
        ⟨.error .streamLost, { s with nDecl := s.nDecl + 1 }, [.declFailed q]⟩
    else ⟨.error .chanWrongState, s, []⟩

/-- Embedding of `MessageBus.make_queue_durable` (old_message_bus.py):
the `queue_declare` call wrapped by `_reconnect_if_required`. -/
def make_queue_durable (w : World) (q : String) : St → Res St :=
  reconnect_if_required Err.isStreamLost (connect w) (queue_declare w q)

/-- Embedding of `self.channel.basic_publish(...)`: `AttributeError` on
`None`, `ChannelWrongStateError` on a closed channel, otherwise one
transport attempt. -/
def basic_publish (w : World) (q m : String) (s : St) : Res St :=
  match s.channel with
  | none => ⟨.error .attrNone, s, []⟩
  | some c =>
    if c.isOpen then
      if w.pubOk s.nPub then
        ⟨.ok (), { s with nPub := s.nPub + 1 }, [.published q m]⟩
      else
        ⟨.error .streamLost, { s with nPub := s.nPub + 1 }, [.pubFailed q m]⟩
    else ⟨.error .chanWrongState, s, []⟩

/-- Body of `MessageBus.send` (old_message_bus.py): `if queue:` guards the
whole body, so a falsy queue identifier returns immediately; otherwise
`self.make_queue_durable(queue)` (itself a decorated method) and then
`self.channel.basic_publish(...)`. -/
def sendBody (w : World) (q m : String) (s : St) : Res St :=
  if q.isEmpty then ⟨.ok (), s, []⟩
  else andThen (make_queue_durable w q) (basic_publish w q m) s

/-- Embedding of `MessageBus.send` (old_message_bus.py): the body wrapped
by `_reconnect_if_required`. -/
def send (w : World) (q m : String) : St → Res St :=
  reconnect_if_required Err.isStreamLost (connect w) (sendBody w q m)

/-- Embedding of `MessageBus.stop` (old_message_bus.py):
`self.channel.close()`.  On `self.channel = None` this is an
`AttributeError`; pika's `Channel.close` raises `ChannelWrongStateError`
when the channel is already closed, otherwise it closes the channel. -/
def stop (s : St) : Res St :=
  match s.channel with
  | none => ⟨.error .attrNone, s, []⟩
  | some c =>
    if c.isOpen then
      ⟨.ok (), { s with channel := some ⟨c.gen, false⟩ }, [.closedChannel]⟩
    else ⟨.error .chanWrongState, s, []⟩

/-- Dispatch loop of pika's `channel.start_consuming()` with the
consumer registered by
`basic_consume(queue, self.service_callback_handler, auto_ack=False)`:
pika hands each delivery (identified by its delivery tag) to the
callback.  Because `auto_ack=False` and `start_consuming` contains no
settle call, the client issues no acknowledgment and no reject here —
settlement is delegated entirely to the externally supplied callback —
and an exception raised by the callback propagates out of the dispatch
loop, the message neither acked nor nacked by the client.  `hOk t` is
the outcome of the callback on delivery tag `t`. -/
def consumeDispatch (hOk : Nat → Bool) : List Nat → St → Res St
  | [], s => ⟨.ok (), s, []⟩
  | t :: rest, s =>
    if hOk t then
      ⟨(consumeDispatch hOk rest s).res, (consumeDispatch hOk rest s).st,
        .handled t :: (consumeDispatch hOk rest s).tr⟩
    else ⟨.error .handlerErr, s, [.handlerFailed t]⟩

/-- Body of `MessageBus.start_consuming` (old_message_bus.py), in the
default `exchange=None` case (no caller in the repository passes an
exchange, so `queue_bind` is skipped): `self.make_queue_durable(queue)`
(itself a decorated method), the assignment of
`self.service_callback_handler` (which has no further observable
effect), then `self.channel.basic_consume(queue, handler,
auto_ack=False)` — an `AttributeError` on `self.channel = None`, a
`ChannelWrongStateError` on a closed channel — and the blocking
`self.channel.start_consuming()` dispatch loop over the deliveries
`delivered`. -/
def startConsumingBody (w : World) (hOk : Nat → Bool) (delivered : List Nat)
    (q : String) (s : St) : Res St :=
  let d := make_queue_durable w q s
  match d.res with
  | .error e => ⟨.error e, d.st, d.tr⟩
  | .ok _ =>
    match d.st.channel with
    | none => ⟨.error .attrNone, d.st, d.tr⟩
    | some c =>
      if c.isOpen then
        let r := consumeDispatch hOk delivered d.st
        ⟨r.res, r.st, d.tr ++ r.tr⟩
      else ⟨.error .chanWrongState, d.st, d.tr⟩

/-- Embedding of `MessageBus.start_consuming` (old_message_bus.py): the
body wrapped by `_reconnect_if_required` (which in this variant catches
only `StreamLostError`, so a callback exception propagates to the
caller). -/
def start_consuming (w : World) (hOk : Nat → Bool) (delivered : List Nat)
    (q : String) : St → Res St :=
  reconnect_if_required Err.isStreamLost (connect w) (startConsumingBody w hOk delivered q)

/-- Embedding of `ch.basic_ack(delivery_tag=method.delivery_tag)` inside
`acknowledge_message`: the settle is issued on the channel object `ch`
handed to the callback — the channel whose generation `chGen` delivered
the message, delivery tags being channel-scoped — never on
`self.channel`.  `ackOk` says whether that channel's stream accepts the
settle; a refusal is a `StreamLostError`. -/
def basic_ack (ackOk : Bool) (chGen tag : Nat) (s : St) : Res St :=
  if ackOk then ⟨.ok (), s, [.completed chGen tag]⟩
  else ⟨.error .streamLost, s, [.completeFailed chGen tag]⟩

/-- Embedding of `MessageBus.acknowledge_message` (old_message_bus.py):
the `basic_ack` on the passed channel, wrapped by
`_reconnect_if_required`. -/
def acknowledge_message (w : World) (ackOk : Bool) (chGen tag : Nat) : St → Res St :=
  reconnect_if_required Err.isStreamLost (connect w) (basic_ack ackOk chGen tag)

/-- Embedding of
`ch.basic_nack(delivery_tag=method.delivery_tag, requeue=requeue)`
inside `not_acknowledge_message`: like `basic_ack`, issued on the passed
channel `ch` of generation `chGen`; `requeue=True` returns the message
to the queue, `requeue=False` discards it from normal flow. -/
def basic_nack (nackOk : Bool) (chGen tag : Nat) (requeue : Bool) (s : St) : Res St :=
  if nackOk then
    if requeue then ⟨.ok (), s, [.abandoned chGen tag]⟩
    else ⟨.ok (), s, [.deadlettered chGen tag]⟩
  else
    if requeue then ⟨.error .streamLost, s, [.abandonFailed chGen tag]⟩
    else ⟨.error .streamLost, s, [.deadletterFailed chGen tag]⟩

/-- Embedding of `MessageBus.not_acknowledge_message`
(old_message_bus.py): the `basic_nack` on the passed channel, wrapped by
`_reconnect_if_required`. -/
def not_acknowledge_message (w : World) (nackOk : Bool) (chGen tag : Nat)
    (requeue : Bool) : St → Res St :=
  reconnect_if_required Err.isStreamLost (connect w) (basic_nack nackOk chGen tag requeue)

end Rmq

namespace Az

/-- A received message (`ServiceBusReceivedMessage`): its delivery handle
is tied to the connection generation `gen` that delivered it; `tag`
identifies the message. -/
structure Msg : Type where
  gen : Nat
  tag : Nat
  deriving DecidableEq, Repr

/-- State of the Azure `MessageBus` object.  `conn` mirrors
`self.servicebus_client` (initially `None`), tagged with its connection
generation.  `service_callback_handler` records whether the callback
attribute has been assigned.  `nextGen`, `nConnect`, `nPub`, `nSession`
are bookkeeping counters indexing the transport oracles. -/
structure St : Type where
  conn : Option Nat
  service_callback_handler : Bool
  nextGen : Nat
  nConnect : Nat
  nPub : Nat
  nSession : Nat
  deriving DecidableEq, Repr

/-- Transport oracles for the Azure variant.  `connectOk n` is the
verdict of the n-th `from_connection_string`; `pubOk n` of the n-th
`sender.send_messages`.  `linkAlive g` says whether the link of the
connection with generation `g` is still alive (settling a handle goes
through the receiver that issued it, so it depends on that link, not on
the current `self.servicebus_client`).  `completeOk`, `abandonOk`,
`deadletterOk` are the broker verdicts for settling a given message on a
live link.  `hOk` is the outcome of the user callback on a message, and
`delivered n` the messages the receiver yields in the n-th consume
session. -/
structure World : Type where
  connectOk : Nat → Bool
  pubOk : Nat → Bool
  linkAlive : Nat → Bool
  completeOk : Msg → Bool
  abandonOk : Msg → Bool
  deadletterOk : Msg → Bool
  hOk : Msg → Bool
  delivered : Nat → List Msg

/-- Embedding of `MessageBus.connect` (message_bus.py):
`self.servicebus_client = ServiceBusClient.from_connection_string(...)`.
On success the attribute is replaced by a fresh connection; on failure
the exception propagates and the attribute is unchanged.  The previous
connection is not closed, merely no longer referenced by the client. -/
def connect (w : World) (s : St) : Res St :=
  if w.connectOk s.nConnect then
    ⟨.ok (), { s with conn := some s.nextGen, nextGen := s.nextGen + 1, nConnect := s.nConnect + 1 }, [.connected]⟩
  else
    ⟨.error .connErr, { s with nConnect := s.nConnect + 1 }, [.connectFailed]⟩

/-- Body of `MessageBus.make_queue_durable` (message_bus.py): it only
prints that durability is handled via Azure configuration — no transport
call, it cannot raise and changes no state. -/
def make_queue_durable_body (q : String) (s : St) : Res St :=
  ⟨.ok (), s, [.declared q]⟩

/-- Embedding of `MessageBus.make_queue_durable` (message_bus.py): the
(non-raising) body wrapped by `_reconnect_if_required`. -/
def make_queue_durable (w : World) (q : String) : St → Res St :=
  reconnect_if_required (fun _ => true) (connect w) (make_queue_durable_body q)

/-- Embedding of the publish step of `send`:
`self.servicebus_client.get_queue_sender(...)` (an `AttributeError` when
the client is `None`) followed by `sender.send_messages(...)`, one
transport attempt. -/
def send_messages (w : World) (q m : String) (s : St) : Res St :=
  match s.conn with
  | none => ⟨.error .attrNone, s, []⟩
  | some _ =>
    if w.pubOk s.nPub then
      ⟨.ok (), { s with nPub := s.nPub + 1 }, [.published q m]⟩
    else
      ⟨.error .pubErr, { s with nPub := s.nPub + 1 }, [.pubFailed q m]⟩

/-- Body of `MessageBus.send` (message_bus.py):
`self.make_queue_durable(queue)` (itself a decorated method) and then the
publish step. -/
def sendBody (w : World) (q m : String) (s : St) : Res St :=
  andThen (make_queue_durable w q) (send_messages w q m) s

/-- Embedding of `MessageBus.send` (message_bus.py): the body wrapped by
`_reconnect_if_required` (which in this variant catches every
exception). -/
def send (w : World) (q m : String) : St → Res St :=
  reconnect_if_required (fun _ => true) (connect w) (sendBody w q m)

/-- Embedding of `receiver.complete_message(message)` inside
`acknowledge_message` and the consume loop: the settle goes to the link
of the connection that issued the handle (`m.gen`); it succeeds when
that link is alive and the broker accepts the completion, and raises
otherwise.  The client state is untouched. -/
def complete_message (w : World) (m : Msg) (s : St) : Res St :=
  if w.linkAlive m.gen && w.completeOk m then
    ⟨.ok (), s, [.completed m.gen m.tag]⟩
  else
    ⟨.error .ackErr, s, [.completeFailed m.gen m.tag]⟩

/-- Embedding of `receiver.abandon_message(message)` (reject with
requeue), settled against the issuing link like `complete_message`. -/
def abandon_message (w : World) (m : Msg) (s : St) : Res St :=
  if w.linkAlive m.gen && w.abandonOk m then
    ⟨.ok (), s, [.abandoned m.gen m.tag]⟩
  else
    ⟨.error .ackErr, s, [.abandonFailed m.gen m.tag]⟩

/-- Embedding of `receiver.dead_letter_message(message)`, settled against
the issuing link like `complete_message`. -/
def dead_letter_message (w : World) (m : Msg) (s : St) : Res St :=
  if w.linkAlive m.gen && w.deadletterOk m then
    ⟨.ok (), s, [.deadlettered m.gen m.tag]⟩
  else
    ⟨.error .ackErr, s, [.deadletterFailed m.gen m.tag]⟩

/-- Embedding of `MessageBus.acknowledge_message` (message_bus.py): the
body is `receiver.complete_message(message)` in a try block that prints
and re-raises, so it is the bare settle; the method is wrapped by
`_reconnect_if_required`. -/
def acknowledge_message (w : World) (m : Msg) : St → Res St :=
  reconnect_if_required (fun _ => true) (connect w) (complete_message w m)

/-- Body of `MessageBus.not_acknowledge_message` (message_bus.py):
`abandon_message` when `requeue` else `dead_letter_message`, in a try
block that prints and re-raises. -/
def nackBody (w : World) (m : Msg) (requeue : Bool) (s : St) : Res St :=
  if requeue then abandon_message w m s else dead_letter_message w m s

/-- Embedding of `MessageBus.not_acknowledge_message` (message_bus.py):
the body wrapped by `_reconnect_if_required`. -/
def not_acknowledge_message (w : World) (m : Msg) (requeue : Bool) : St → Res St :=
  reconnect_if_required (fun _ => true) (connect w) (nackBody w m requeue)

/-- One iteration of the `for msg in receiver` loop of `start_consuming`:
`try: handler(msg); receiver.complete_message(msg)` and on any exception
from either, `receiver.abandon_message(msg)`.  An exception raised by
the abandon itself propagates out of the loop. -/
def consumeStep (w : World) (m : Msg) (s : St) : Res St :=
  if w.hOk m then
    match (complete_message w m s).res with
    | .ok _ =>
      ⟨.ok (), (complete_message w m s).st,
        .handled m.tag :: (complete_message w m s).tr⟩
    | .error _ =>
      ⟨(abandon_message w m (complete_message w m s).st).res,
        (abandon_message w m (complete_message w m s).st).st,
        .handled m.tag :: (complete_message w m s).tr ++
          (abandon_message w m (complete_message w m s).st).tr⟩
  else
    ⟨(abandon_message w m s).res, (abandon_message w m s).st,
      .handlerFailed m.tag :: (abandon_message w m s).tr⟩

/-- The `for msg in receiver` loop of `start_consuming` over the messages
the receiver yields: each message is processed by `consumeStep`; an
exception from a step propagates and terminates the loop. -/
def consumeLoop (w : World) : List Msg → St → Res St
  | [], s => ⟨.ok (), s, []⟩
  | m :: rest, s =>
    match (consumeStep w m s).res with
    | .error e => ⟨.error e, (consumeStep w m s).st, (consumeStep w m s).tr⟩
    | .ok _ =>
      ⟨(consumeLoop w rest (consumeStep w m s).st).res,
        (consumeLoop w rest (consumeStep w m s).st).st,
        (consumeStep w m s).tr ++ (consumeLoop w rest (consumeStep w m s).st).tr⟩

/-- Body of `MessageBus.start_consuming` (message_bus.py):
`self.make_queue_durable(queue)`, assignment of
`self.service_callback_handler`, then
`self.servicebus_client.get_queue_receiver(...)` (an `AttributeError`
when the client is `None`) opening a receive session whose delivered
messages are `w.delivered` at the session index, processed by the
loop. -/
def startConsumingBody (w : World) (q : String) (s : St) : Res St :=
  let d := make_queue_durable w q s
  match d.res with
  | .error e => ⟨.error e, d.st, d.tr⟩
  | .ok _ =>
    let s1 : St := { d.st with service_callback_handler := true }
    match s1.conn with
    | none => ⟨.error .attrNone, s1, d.tr⟩
    | some _ =>
      let r := consumeLoop w (w.delivered s1.nSession) { s1 with nSession := s1.nSession + 1 }
      ⟨r.res, r.st, d.tr ++ r.tr⟩

/-- Embedding of `MessageBus.start_consuming` (message_bus.py): the body
wrapped by `_reconnect_if_required`. -/
def start_consuming (w : World) (q : String) : St → Res St :=
  reconnect_if_required (fun _ => true) (connect w) (startConsumingBody w q)

/-- The per-message trace of one loop iteration when the settle
operations succeed: handler success gives exactly one completion,
handler failure exactly one abandon (requeue). -/
def stepTr (w : World) (m : Msg) : List Ev :=
  if w.hOk m then [.handled m.tag, .completed m.gen m.tag]
  else [.handlerFailed m.tag, .abandoned m.gen m.tag]

/-- Concatenated per-message traces of a message list. -/
def traceOfMsgs (w : World) : List Msg → List Ev
  | [] => []
  | m :: rest => stepTr w m ++ traceOfMsgs w rest

end Az

/-- Does the event record an invocation of `connect()` (successful or
not)? -/
def Ev.isConnectCall : Ev → Bool
  | .connected => true
  | .connectFailed => true
  | _ => false

/-- Does the event record a `queue_declare` transport attempt? -/
def Ev.isDeclAttempt : Ev → Bool
  | .declared _ => true
  | .declFailed _ => true
  | _ => false

/-- Does the event record a successfully published message? -/
def Ev.isPublished : Ev → Bool
  | .published _ _ => true
  | _ => false

/-- Does the event record a publish transport attempt? -/
def Ev.isPubAttempt : Ev → Bool
  | .published _ _ => true
  | .pubFailed _ _ => true
  | _ => false

/-- Does the event record the successful completion (ack) of the message
with generation `g` and tag `t`? -/
def evEqCompleted (g t : Nat) : Ev → Bool
  | .completed g2 t2 => g2 == g && t2 == t
  | _ => false

/-- Does the event record the successful abandon (reject-with-requeue) of
the message with generation `g` and tag `t`? -/
def evEqAbandoned (g t : Nat) : Ev → Bool
  | .abandoned g2 t2 => g2 == g && t2 == t
  | _ => false

/-- Does the event record a successful settle (complete, abandon or
dead-letter)? -/
def Ev.isSettle : Ev → Bool
  | .completed _ _ => true
  | .abandoned _ _ => true
  | .deadlettered _ _ => true
  | _ => false

/-- Does the event record a successful settle (complete, abandon or
dead-letter) against a connection generation other than `g`? -/
def evSettledOtherGen (g : Nat) : Ev → Bool
  | .completed g2 _ => g2 != g
  | .abandoned g2 _ => g2 != g
  | .deadlettered g2 _ => g2 != g
  | _ => false

/-- RabbitMQ world whose transport loses the stream on every
`queue_declare` attempt while `connect` always succeeds. -/
def wBadDecl : Rmq.World := ⟨fun _ => true, fun _ => false, fun _ => true⟩

/-- RabbitMQ world whose transport always cooperates. -/
def wAllOkR : Rmq.World := ⟨fun _ => true, fun _ => true, fun _ => true⟩

/-- RabbitMQ world where the first publish attempt loses the stream and
every later attempt succeeds. -/
def wPubRetryR : Rmq.World := ⟨fun _ => true, fun _ => true, fun n => n != 0⟩

/-- A connected RabbitMQ client state: channel of generation 0, open,
fresh counters, no queues declared yet. -/
def rs0 : Rmq.St := ⟨some ⟨0, true⟩, 1, 0, 0, 0, []⟩

/-- Azure world whose transport always cooperates, with handler outcomes
given by the parity of the message tag and two messages delivered in
session 0. -/
def wConsAz : Az.World :=
  ⟨fun _ => true, fun _ => true, fun _ => true, fun _ => true, fun _ => true,
   fun _ => true, fun m => m.tag % 2 == 0, fun _ => [⟨0, 0⟩, ⟨0, 1⟩]⟩

/-- Azure world where every publish attempt fails while `connect` always
succeeds. -/
def wNoPubAz : Az.World :=
  ⟨fun _ => true, fun _ => false, fun _ => true, fun _ => true, fun _ => true,
   fun _ => true, fun _ => true, fun _ => []⟩

/-- Azure world where the first publish attempt fails and every later
attempt succeeds. -/
def wPubRetryAz : Az.World :=
  ⟨fun _ => true, fun n => n != 0, fun _ => true, fun _ => true, fun _ => true,
   fun _ => true, fun _ => true, fun _ => []⟩

/-- Azure world where every link is dead: every settle attempt fails. -/
def wDeadLinkAz : Az.World :=
  ⟨fun _ => true, fun _ => true, fun _ => false, fun _ => true, fun _ => true,
   fun _ => true, fun _ => true, fun _ => []⟩

/-- Azure world where every link is alive and the broker accepts every
settle. -/
def wLiveLinkAz : Az.World :=
  ⟨fun _ => true, fun _ => true, fun _ => true, fun _ => true, fun _ => true,
   fun _ => true, fun _ => true, fun _ => []⟩

/-- A connected Azure client state: connection of generation 0, fresh
counters. -/
def as0 : Az.St := ⟨some 0, false, 1, 0, 0, 0⟩

/-- An Azure client state whose current connection has generation 1,
with generation 0 already superseded. -/
def as1 : Az.St := ⟨some 1, false, 2, 1, 0, 0⟩

/-- A message whose delivery handle was issued by the superseded
connection generation 0. -/
def mStale : Az.Msg := ⟨0, 5⟩

/-! ## Helper lemmas -/

/-- The Azure `make_queue_durable` cannot raise: its body only prints, so
the reconnect wrapper returns the first attempt unchanged. -/
theorem az_make_queue_durable_eq (w : Az.World) (q : String) (s : Az.St) :
    Az.make_queue_durable w q s = ⟨.ok (), s, [.declared q]⟩ := rfl

/-- When the wrapped operation returns normally, the reconnect wrapper is
the operation itself. -/
theorem reconnect_if_required_ok {σ : Type} (retryable : Err → Bool)
    (cn op : σ → Res σ) (s : σ) (h : (op s).res = .ok ()) :
    reconnect_if_required retryable cn op s = op s := by
  unfold reconnect_if_required
  rw [h]

/-- Event-count bound through the reconnect wrapper: at most two runs of
the wrapped operation and one of `connect`. -/
theorem countP_reconnect_le {σ : Type} (p : Ev → Bool) (retryable : Err → Bool)
    (cn op : σ → Res σ) (a b : Nat)
    (hop : ∀ s, ((op s).tr.countP p) ≤ a) (hcn : ∀ s, ((cn s).tr.countP p) ≤ b) :
    ∀ s, ((reconnect_if_required retryable cn op s).tr.countP p) ≤ 2 * a + b := by
  intro s
  unfold reconnect_if_required
  cases h : (op s).res with
  | ok u =>
    have := hop s
    simp [h]
    omega
  | error e =>
    cases hr : retryable e with
    | false =>
      have := hop s
      simp [h, hr]
      omega
    | true =>
      cases h2 : (cn (op s).st).res with
      | error ce =>
        have o1 := hop s
        have c1 := hcn (op s).st
        simp [h, hr, h2, List.countP_append]
        omega
      | ok u =>
        have o1 := hop s
        have c1 := hcn (op s).st
        have o2 := hop (cn (op s).st).st
        simp [h, hr, h2, List.countP_append]
        omega

/-- The trace of the reconnect wrapper is the first attempt's trace,
possibly followed by the connect trace and then the retry's trace. -/
theorem reconnect_tr_cases {σ : Type} (retryable : Err → Bool)
    (cn op : σ → Res σ) (s : σ) :
    (reconnect_if_required retryable cn op s).tr = (op s).tr ∨
    (reconnect_if_required retryable cn op s).tr = (op s).tr ++ (cn (op s).st).tr ∨
    (reconnect_if_required retryable cn op s).tr
      = (op s).tr ++ (cn (op s).st).tr ++ (op (cn (op s).st).st).tr := by
  unfold reconnect_if_required
  cases h : (op s).res with
  | ok u => exact Or.inl rfl
  | error e =>
    cases hr : retryable e with
    | false => simp [hr]
    | true =>
      cases h2 : (cn (op s).st).res with
      | error ce => simp [hr, h2]
      | ok u => simp [hr, h2]

/-! ## C9 -/

/-- C9: in the RabbitMQ variant, `send` with a falsy queue identifier
(the empty string; `None` is likewise falsy under the `if queue:` guard)
returns without error, performs no queue declaration, publishes nothing,
and leaves the client state unchanged. -/
theorem c9_send_falsy_queue_noop (w : Rmq.World) (m : String) (s : Rmq.St) :
    Rmq.send w "" m s = ⟨.ok (), s, []⟩ := rfl

/-! ## C5 -/

/-- C5 counterexample: on a connected client the first `stop()` returns
normally but the second raises `ChannelWrongStateError` (pika's
`Channel.close` is not idempotent), so calling `stop()` twice in
succession does raise an error, contrary to the claim. -/
theorem c5_counterexample :
    (Rmq.stop rs0).res = .ok () ∧
    (Rmq.stop (Rmq.stop rs0).st).res = .error .chanWrongState := ⟨rfl, rfl⟩

/-- C5 (amended): on a connected RabbitMQ client the first `stop()`
succeeds, a second `stop()` raises `ChannelWrongStateError`, and after
`stop()` a `send` on a non-empty queue raises `ChannelWrongStateError`
(not the spec's `ConnectionError`, and with no reconnect attempt, since
that exception is not a `StreamLostError`) until `connect()` is called
again, after which `send` succeeds on a cooperating transport. -/
theorem c5_stop_twice (w : Rmq.World) (s : Rmq.St) (g : Nat) (q m : String)
    (hch : s.channel = some ⟨g, true⟩)
    (hq : q.isEmpty = false)
    (hcn : ∀ n, w.connectOk n = true)
    (hdecl : ∀ n, w.declOk n = true)
    (hpub : ∀ n, w.pubOk n = true) :
    (Rmq.stop s).res = .ok () ∧
    (Rmq.stop (Rmq.stop s).st).res = .error .chanWrongState ∧
    (Rmq.send w q m (Rmq.stop s).st).res = .error .chanWrongState ∧
    (Rmq.send w q m (Rmq.connect w (Rmq.stop s).st).st).res = .ok () := by
  refine ⟨?_, ?_, ?_, ?_⟩
  · simp [Rmq.stop, hch]
  · simp [Rmq.stop, hch]
  · simp [Rmq.send, reconnect_if_required, Rmq.sendBody, andThen,
      Rmq.make_queue_durable, Rmq.queue_declare, Rmq.basic_publish,
      Rmq.stop, hch, hq, Err.isStreamLost]
  · simp [Rmq.send, reconnect_if_required, Rmq.sendBody, andThen,
      Rmq.make_queue_durable, Rmq.queue_declare, Rmq.basic_publish,
      Rmq.stop, Rmq.connect, hch, hq, hcn, hdecl, hpub]

/-- C5 witness: the amended statement at a concrete connected client and
cooperating transport. -/
theorem c5_stop_twice_witness :
    (Rmq.stop rs0).res = .ok () ∧
    (Rmq.stop (Rmq.stop rs0).st).res = .error .chanWrongState ∧
    (Rmq.send wAllOkR "q5" "m5" (Rmq.stop rs0).st).res = .error .chanWrongState ∧
    (Rmq.send wAllOkR "q5" "m5" (Rmq.connect wAllOkR (Rmq.stop rs0).st).st).res = .ok () :=
  c5_stop_twice wAllOkR rs0 0 "q5" "m5" rfl rfl (fun _ => rfl) (fun _ => rfl) (fun _ => rfl)

/-! ## C6 -/

/-- C6: `make_queue_durable` is idempotent in both variants.  In the
Azure variant it is a pure no-op that always succeeds and leaves the
state untouched, so two calls in a row behave identically.  In the
RabbitMQ variant, on an open channel with a transport that accepts the
two declare attempts, both calls return normally and the second call
leaves the broker's declared-queue set exactly as the first left it. -/
theorem c6_make_queue_durable_idempotent (wa : Az.World) (qa : String) (sa : Az.St)
    (w : Rmq.World) (q : String) (s : Rmq.St) (g : Nat)
    (hch : s.channel = some ⟨g, true⟩)
    (h1 : w.declOk s.nDecl = true)
    (h2 : w.declOk (s.nDecl + 1) = true) :
    Az.make_queue_durable wa qa sa = ⟨.ok (), sa, [.declared qa]⟩ ∧
    Az.make_queue_durable wa qa (Az.make_queue_durable wa qa sa).st = ⟨.ok (), sa, [.declared qa]⟩ ∧
    (Rmq.make_queue_durable w q s).res = .ok () ∧
    (Rmq.make_queue_durable w q (Rmq.make_queue_durable w q s).st).res = .ok () ∧
    (Rmq.make_queue_durable w q (Rmq.make_queue_durable w q s).st).st.queues
      = (Rmq.make_queue_durable w q s).st.queues := by
  refine ⟨rfl, rfl, ?_, ?_, ?_⟩
  · simp [Rmq.make_queue_durable, reconnect_if_required, Rmq.queue_declare, hch, h1]
  · simp [Rmq.make_queue_durable, reconnect_if_required, Rmq.queue_declare, hch, h1, h2]
  · by_cases hq : q ∈ s.queues <;>
      simp [Rmq.make_queue_durable, reconnect_if_required, Rmq.queue_declare, hch, h1, h2, hq]

/-- C6 witness: both variants at a concrete queue, client state and
cooperating transport. -/
theorem c6_make_queue_durable_idempotent_witness :
    Az.make_queue_durable wConsAz "wq" as0 = ⟨.ok (), as0, [.declared "wq"]⟩ ∧
    Az.make_queue_durable wConsAz "wq" (Az.make_queue_durable wConsAz "wq" as0).st = ⟨.ok (), as0, [.declared "wq"]⟩ ∧
    (Rmq.make_queue_durable wAllOkR "q6" rs0).res = .ok () ∧
    (Rmq.make_queue_durable wAllOkR "q6" (Rmq.make_queue_durable wAllOkR "q6" rs0).st).res = .ok () ∧
    (Rmq.make_queue_durable wAllOkR "q6" (Rmq.make_queue_durable wAllOkR "q6" rs0).st).st.queues
      = (Rmq.make_queue_durable wAllOkR "q6" rs0).st.queues :=
  c6_make_queue_durable_idempotent wConsAz "wq" as0 wAllOkR "q6" rs0 0 rfl rfl rfl

/-! ## C1 -/

/-- C1 counterexample: in the RabbitMQ variant, a `send` whose
`queue_declare` keeps raising `StreamLostError` (a transport-classified
failure of the send operation) makes the client call `connect()` three
times, not exactly once, before the error propagates — the wrapper on
`make_queue_durable` nests inside the wrapper on `send`. -/
theorem c1_counterexample :
    (Rmq.send wBadDecl "jobs" "m1" rs0).res = .error .streamLost ∧
    ((Rmq.send wBadDecl "jobs" "m1" rs0).tr.countP Ev.isConnectCall) = 3 := ⟨rfl, rfl⟩

/-- C1 (amended): each individual method wrapped by
`_reconnect_if_required` does implement the policy — when its body
raises a caught failure and `connect()` succeeds, the wrapper calls
`connect()` exactly once, re-runs the body exactly once, and the retry's
outcome (in particular the retried operation's own error, if the retry
also fails) is what reaches the caller, with the wrapper contributing
exactly the one connect between the two attempts.  However, because the
wrapped `make_queue_durable` is called inside the wrapped bodies of
`send` and `start_consuming`, a single public send/consume call in the
RabbitMQ variant can trigger up to three `connect()` calls when the
declaration keeps failing, so at the public-operation level the
reconnect-and-retry is not exactly once. -/
theorem c1_reconnect_wrapper {σ : Type} (retryable : Err → Bool)
    (cn op : σ → Res σ) (s : σ) (e : Err)
    (h1 : (op s).res = .error e) (h2 : retryable e = true)
    (h3 : (cn (op s).st).res = .ok ()) :
    reconnect_if_required retryable cn op s =
      ⟨(op (cn (op s).st).st).res, (op (cn (op s).st).st).st,
        (op s).tr ++ (cn (op s).st).tr ++ (op (cn (op s).st).st).tr⟩ := by
  unfold reconnect_if_required
  rw [h1, h3]
  simp [h2]

/-- C1 witness: the wrapper statement at a concrete RabbitMQ publish
whose first attempt loses the stream and whose retry succeeds. -/
theorem c1_reconnect_wrapper_witness :
    reconnect_if_required Err.isStreamLost (Rmq.connect wPubRetryR)
        (Rmq.basic_publish wPubRetryR "wq" "wm") rs0 =
      ⟨(Rmq.basic_publish wPubRetryR "wq" "wm"
          (Rmq.connect wPubRetryR (Rmq.basic_publish wPubRetryR "wq" "wm" rs0).st).st).res,
        (Rmq.basic_publish wPubRetryR "wq" "wm"
          (Rmq.connect wPubRetryR (Rmq.basic_publish wPubRetryR "wq" "wm" rs0).st).st).st,
        (Rmq.basic_publish wPubRetryR "wq" "wm" rs0).tr ++
          (Rmq.connect wPubRetryR (Rmq.basic_publish wPubRetryR "wq" "wm" rs0).st).tr ++
          (Rmq.basic_publish wPubRetryR "wq" "wm"
            (Rmq.connect wPubRetryR (Rmq.basic_publish wPubRetryR "wq" "wm" rs0).st).st).tr⟩ :=
  c1_reconnect_wrapper Err.isStreamLost (Rmq.connect wPubRetryR)
    (Rmq.basic_publish wPubRetryR "wq" "wm") rs0 .streamLost rfl rfl rfl

/-! ## C4 -/

/-- C4 counterexample: in the RabbitMQ variant, with the transport
failing every `queue_declare`, a single `send` reconnects three times —
not after "the single reconnect" — and the publish half of the "full
operation" is never attempted at all: the declaration-phase failures are
retried by the nested wrapper on `make_queue_durable` alone. -/
theorem c4_counterexample :
    (Rmq.send wBadDecl "q4" "m4" rs0).res = .error .streamLost ∧
    ((Rmq.send wBadDecl "q4" "m4" rs0).tr.countP Ev.isConnectCall) = 3 ∧
    ((Rmq.send wBadDecl "q4" "m4" rs0).tr.countP Ev.isPubAttempt) = 0 := ⟨rfl, rfl, rfl⟩

/-- C4 (amended): in the Azure variant the claim holds as stated — `send`
performs the durable-queue declaration and only then attempts the
publish, and on a transport failure of the publish the single reconnect
is followed by a retry of the full body, declaration then publish.  In
the RabbitMQ variant the same wrapper wraps the full `send` body, but a
transport failure inside the nested `make_queue_durable` wrapper is
first retried there alone (declaration only), so the reconnect need not
be single and the retried unit need not be the full operation. -/
theorem c4_send_declare_then_publish (w : Az.World) (q m : String) (s : Az.St) (g : Nat)
    (hconn : s.conn = some g)
    (hp0 : w.pubOk s.nPub = false)
    (hp1 : w.pubOk (s.nPub + 1) = true)
    (hcn : w.connectOk s.nConnect = true) :
    (Az.send w q m s).res = .ok () ∧
    (Az.send w q m s).tr
      = [.declared q, .pubFailed q m, .connected, .declared q, .published q m] := by
  constructor <;>
    simp [Az.send, reconnect_if_required, Az.sendBody, andThen, az_make_queue_durable_eq,
      Az.send_messages, Az.connect, hconn, hp0, hp1, hcn]

/-- C4 witness: the Azure statement at a concrete connected client whose
first publish attempt fails and whose retry succeeds. -/
theorem c4_send_declare_then_publish_witness :
    (Az.send wPubRetryAz "q" "m" as0).res = .ok () ∧
    (Az.send wPubRetryAz "q" "m" as0).tr
      = [.declared "q", .pubFailed "q" "m", .connected, .declared "q", .published "q" "m"] :=
  c4_send_declare_then_publish wPubRetryAz "q" "m" as0 0 rfl rfl rfl rfl

/-! ## C3 -/

/-- C3: in the Azure variant, when every publish attempt fails on the
transport and `connect()` succeeds, `send` raises the publish error to
the caller after the single reconnect-and-retry, and its trace contains
no successfully published message: nothing is enqueued.  The client
state (`St`) mirrors the attributes of the Python object — callback,
connection string, queue name, client — none of which can hold a
message, so no unsent message is buffered for later delivery. -/
theorem c3_send_double_failure (w : Az.World) (q m : String) (s : Az.St) (g : Nat)
    (hconn : s.conn = some g)
    (hpub : ∀ n, w.pubOk n = false)
    (hcn : ∀ n, w.connectOk n = true) :
    (Az.send w q m s).res = .error .pubErr ∧
    (Az.send w q m s).tr
      = [.declared q, .pubFailed q m, .connected, .declared q, .pubFailed q m] ∧
    ((Az.send w q m s).tr.countP Ev.isPublished) = 0 := by
  refine ⟨?_, ?_, ?_⟩ <;>
    simp [Az.send, reconnect_if_required, Az.sendBody, andThen, az_make_queue_durable_eq,
      Az.send_messages, Az.connect, Ev.isPublished, hconn, hpub, hcn, List.countP_cons]

/-- C3 witness: the statement at a concrete connected client under a
transport that rejects every publish. -/
theorem c3_send_double_failure_witness :
    (Az.send wNoPubAz "q" "m" as0).res = .error .pubErr ∧
    (Az.send wNoPubAz "q" "m" as0).tr
      = [.declared "q", .pubFailed "q" "m", .connected, .declared "q", .pubFailed "q" "m"] ∧
    ((Az.send wNoPubAz "q" "m" as0).tr.countP Ev.isPublished) = 0 :=
  c3_send_double_failure wNoPubAz "q" "m" as0 0 rfl (fun _ => rfl) (fun _ => rfl)

/-! ## C7 -/

/-- C7 counterexample: `connect()` only reassigns
`self.servicebus_client`; it never closes or invalidates the previous
connection, and `acknowledge_message` / `not_acknowledge_message` settle
through the receiver they are handed.  So on a client whose current
connection has generation 1, a handle issued by the superseded
generation 0 is still settled against its originating link, and when
that link happens to be alive the ack and the reject both return
normally instead of failing with an ack error. -/
theorem c7_counterexample :
    as1.conn = some 1 ∧ mStale.gen = 0 ∧ mStale.gen ≠ 1 ∧
    (Az.acknowledge_message wLiveLinkAz mStale as1).res = .ok () ∧
    (Az.not_acknowledge_message wLiveLinkAz mStale true as1).res = .ok () :=
  ⟨rfl, rfl, by decide, rfl, rfl⟩

/-- C7 (amended): `acknowledge_message` and `not_acknowledge_message` on
a handle from a superseded Connection raise the ack error — rather than
silently succeeding — exactly when the originating connection's link is
no longer alive (the usual situation when the reconnect was forced by a
real transport failure); the reconnect the wrapper performs cannot help,
because the retry still settles against the dead originating link.  The
client itself performs no staleness check, so a handle whose superseded
connection happens to keep a live link is settled successfully there. -/
theorem c7_stale_handle_ack_fails (w : Az.World) (m : Az.Msg) (s : Az.St) (requeue : Bool)
    (hdead : w.linkAlive m.gen = false)
    (hcn : ∀ n, w.connectOk n = true) :
    (Az.acknowledge_message w m s).res = .error .ackErr ∧
    (Az.not_acknowledge_message w m requeue s).res = .error .ackErr := by
  cases requeue <;>
    simp [Az.acknowledge_message, Az.not_acknowledge_message, reconnect_if_required,
      Az.complete_message, Az.nackBody, Az.abandon_message, Az.dead_letter_message,
      Az.connect, hdead, hcn]

/-- C7 witness: the amended statement at a concrete superseded handle
whose originating link is dead. -/
theorem c7_stale_handle_ack_fails_witness :
    (Az.acknowledge_message wDeadLinkAz mStale as1).res = .error .ackErr ∧
    (Az.not_acknowledge_message wDeadLinkAz mStale true as1).res = .error .ackErr :=
  c7_stale_handle_ack_fails wDeadLinkAz mStale as1 true rfl (fun _ => rfl)

/-! ## C8 -/

/-- Every event emitted by the Azure `connect` is a connection event,
never a settle. -/
theorem az_connect_tr_no_settle (w : Az.World) (s : Az.St) (e : Ev)
    (he : e ∈ (Az.connect w s).tr) : Ev.isSettle e = false := by
  unfold Az.connect at he
  cases h : w.connectOk s.nConnect <;> simp [h] at he <;> simp [he, Ev.isSettle]

/-- Every successful settle event of one consume-loop iteration settles
the processed message against its own issuing generation. -/
theorem az_consumeStep_settles (w : Az.World) (m : Az.Msg) (s : Az.St) (e : Ev)
    (he : e ∈ (Az.consumeStep w m s).tr) (hs : Ev.isSettle e = true) :
    e = Ev.completed m.gen m.tag ∨ e = Ev.abandoned m.gen m.tag := by
  cases hh : w.hOk m with
  | true =>
    cases hc : (w.linkAlive m.gen && w.completeOk m) with
    | true =>
      simp [Az.consumeStep, Az.complete_message, hh, hc] at he
      rcases he with rfl | rfl
      · exact absurd hs (by simp [Ev.isSettle])
      · exact Or.inl rfl
    | false =>
      cases ha : (w.linkAlive m.gen && w.abandonOk m) with
      | true =>
        simp [Az.consumeStep, Az.complete_message, Az.abandon_message, hh, hc, ha] at he
        rcases he with rfl | rfl | rfl
        · exact absurd hs (by simp [Ev.isSettle])
        · exact absurd hs (by simp [Ev.isSettle])
        · exact Or.inr rfl
      | false =>
        simp [Az.consumeStep, Az.complete_message, Az.abandon_message, hh, hc, ha] at he
        rcases he with rfl | rfl | rfl
        · exact absurd hs (by simp [Ev.isSettle])
        · exact absurd hs (by simp [Ev.isSettle])
        · exact absurd hs (by simp [Ev.isSettle])
  | false =>
    cases ha : (w.linkAlive m.gen && w.abandonOk m) with
    | true =>
      simp [Az.consumeStep, Az.abandon_message, hh, ha] at he
      rcases he with rfl | rfl
      · exact absurd hs (by simp [Ev.isSettle])
      · exact Or.inr rfl
    | false =>
      simp [Az.consumeStep, Az.abandon_message, hh, ha] at he
      rcases he with rfl | rfl
      · exact absurd hs (by simp [Ev.isSettle])
      · exact absurd hs (by simp [Ev.isSettle])

/-- Every successful settle event of the consume loop settles one of the
delivered messages against its own issuing generation. -/
theorem az_consumeLoop_settles (w : Az.World) (ms : List Az.Msg) :
    ∀ (s : Az.St) (e : Ev), e ∈ (Az.consumeLoop w ms s).tr → Ev.isSettle e = true →
      ∃ m2 ∈ ms, e = Ev.completed m2.gen m2.tag ∨ e = Ev.abandoned m2.gen m2.tag := by
  induction ms with
  | nil =>
    intro s e he hs
    simp [Az.consumeLoop] at he
  | cons m rest ih =>
    intro s e he hs
    unfold Az.consumeLoop at he
    cases hstep : (Az.consumeStep w m s).res with
    | error e2 =>
      simp [hstep] at he
      exact ⟨m, List.mem_cons_self m rest, az_consumeStep_settles w m s e he hs⟩
    | ok u =>
      simp [hstep, List.mem_append] at he
      rcases he with he | he
      · exact ⟨m, List.mem_cons_self m rest, az_consumeStep_settles w m s e he hs⟩
      · obtain ⟨m2, hm2, hor⟩ := ih _ e he hs
        exact ⟨m2, List.mem_cons_of_mem m hm2, hor⟩

/-- Every successful settle event of the `start_consuming` body settles
a delivered message against its own issuing generation. -/
theorem az_startConsumingBody_settles (w : Az.World) (q : String) (s : Az.St) (e : Ev)
    (he : e ∈ (Az.startConsumingBody w q s).tr) (hs : Ev.isSettle e = true) :
    ∃ n, ∃ m2 ∈ w.delivered n,
      e = Ev.completed m2.gen m2.tag ∨ e = Ev.abandoned m2.gen m2.tag := by
  cases hc : s.conn with
  | none =>
    simp [Az.startConsumingBody, az_make_queue_durable_eq, hc] at he
    subst he
    simp [Ev.isSettle] at hs
  | some g =>
    simp [Az.startConsumingBody, az_make_queue_durable_eq, hc] at he
    rcases he with rfl | he
    · simp [Ev.isSettle] at hs
    · exact ⟨s.nSession, az_consumeLoop_settles w (w.delivered s.nSession) _ e he hs⟩

/-- Every successful settle event of `start_consuming` — across its
reconnect-and-retry — settles a delivered message against its own
issuing generation. -/
theorem az_start_consuming_settles (w : Az.World) (q : String) (s : Az.St) (e : Ev)
    (he : e ∈ (Az.start_consuming w q s).tr) (hs : Ev.isSettle e = true) :
    ∃ n, ∃ m2 ∈ w.delivered n,
      e = Ev.completed m2.gen m2.tag ∨ e = Ev.abandoned m2.gen m2.tag := by
  unfold Az.start_consuming at he
  rcases reconnect_tr_cases (fun _ => true) (Az.connect w) (Az.startConsumingBody w q) s
    with h | h | h <;> rw [h] at he
  · exact az_startConsumingBody_settles w q s e he hs
  · rcases List.mem_append.mp he with he | he
    · exact az_startConsumingBody_settles w q s e he hs
    · exact absurd hs (by simp [az_connect_tr_no_settle w _ e he])
  · rcases List.mem_append.mp he with he | he
    · rcases List.mem_append.mp he with he | he
      · exact az_startConsumingBody_settles w q s e he hs
      · exact absurd hs (by simp [az_connect_tr_no_settle w _ e he])
    · exact az_startConsumingBody_settles w q _ e he hs

/-- C8: each variant's client holds at most one Connection by
construction (the single `servicebus_client` / `channel` attribute), and
in both variants `connect()` either replaces it with the fresh
connection or, when the constructor raises, leaves it untouched — it
never adds a second one.  And no client operation ever settles a handle
against a connection other than the one that issued it: the explicit
Azure `acknowledge_message` / `not_acknowledge_message` and the RabbitMQ
`acknowledge_message` / `not_acknowledge_message` produce no settle
event carrying a generation other than that of the handle's issuing
connection, and every settle the Azure `start_consuming` loop performs
is of a delivered message against that message's own issuing generation
— so a handle of a superseded Connection is never acknowledged against a
new Connection. -/
theorem c8_single_connection (w : Az.World) (s : Az.St) (m : Az.Msg) (requeue : Bool)
    (q : String) (wr : Rmq.World) (sr : Rmq.St) (ackOk nackOk : Bool)
    (chGen tag : Nat) (rq2 : Bool) :
    ((Az.connect w s).st.conn = some s.nextGen ∨ (Az.connect w s).st.conn = s.conn) ∧
    ((Rmq.connect wr sr).st.channel = some ⟨sr.nextGen, true⟩ ∨
      (Rmq.connect wr sr).st.channel = sr.channel) ∧
    ((Az.acknowledge_message w m s).tr.countP (evSettledOtherGen m.gen) = 0) ∧
    ((Az.not_acknowledge_message w m requeue s).tr.countP (evSettledOtherGen m.gen) = 0) ∧
    ((Rmq.acknowledge_message wr ackOk chGen tag sr).tr.countP (evSettledOtherGen chGen) = 0) ∧
    ((Rmq.not_acknowledge_message wr nackOk chGen tag rq2 sr).tr.countP (evSettledOtherGen chGen) = 0) ∧
    (∀ e ∈ (Az.start_consuming w q s).tr, Ev.isSettle e = true →
      ∃ n, ∃ m2 ∈ w.delivered n,
        e = Ev.completed m2.gen m2.tag ∨ e = Ev.abandoned m2.gen m2.tag) := by
  refine ⟨?_, ?_, ?_, ?_, ?_, ?_, fun e he hs => az_start_consuming_settles w q s e he hs⟩
  · unfold Az.connect
    cases h : w.connectOk s.nConnect <;> simp [h]
  · unfold Rmq.connect
    cases h : wr.connectOk sr.nConnect <;> simp [h]
  · unfold Az.acknowledge_message reconnect_if_required Az.complete_message
    cases h1 : (w.linkAlive m.gen && w.completeOk m) <;>
      cases h2 : w.connectOk s.nConnect <;>
        simp [h1, h2, Az.connect, evSettledOtherGen, List.countP_cons]
  · unfold Az.not_acknowledge_message reconnect_if_required Az.nackBody
      Az.abandon_message Az.dead_letter_message
    cases requeue <;>
      cases h1 : (w.linkAlive m.gen && w.abandonOk m) <;>
        cases h1d : (w.linkAlive m.gen && w.deadletterOk m) <;>
          cases h2 : w.connectOk s.nConnect <;>
            simp [h1, h1d, h2, Az.connect, evSettledOtherGen, List.countP_cons]
  · unfold Rmq.acknowledge_message reconnect_if_required Rmq.basic_ack
    cases hak : ackOk <;> cases h2 : wr.connectOk sr.nConnect <;>
      simp [hak, h2, Rmq.connect, Err.isStreamLost, evSettledOtherGen, List.countP_cons]
  · unfold Rmq.not_acknowledge_message reconnect_if_required Rmq.basic_nack
    cases hnk : nackOk <;> cases rq2 <;> cases h2 : wr.connectOk sr.nConnect <;>
      simp [hnk, h2, Rmq.connect, Err.isStreamLost, evSettledOtherGen, List.countP_cons]

/-- C8 witness: the statement at concrete clients, a handle of a
superseded connection and a concrete delivering channel. -/
theorem c8_single_connection_witness :
    ((Az.connect wConsAz as0).st.conn = some as0.nextGen ∨
      (Az.connect wConsAz as0).st.conn = as0.conn) ∧
    ((Rmq.connect wAllOkR rs0).st.channel = some ⟨rs0.nextGen, true⟩ ∨
      (Rmq.connect wAllOkR rs0).st.channel = rs0.channel) ∧
    ((Az.acknowledge_message wConsAz mStale as0).tr.countP (evSettledOtherGen mStale.gen) = 0) ∧
    ((Az.not_acknowledge_message wConsAz mStale true as0).tr.countP (evSettledOtherGen mStale.gen) = 0) ∧
    ((Rmq.acknowledge_message wAllOkR true 0 4 rs0).tr.countP (evSettledOtherGen 0) = 0) ∧
    ((Rmq.not_acknowledge_message wAllOkR true 0 4 true rs0).tr.countP (evSettledOtherGen 0) = 0) ∧
    (∀ e ∈ (Az.start_consuming wConsAz "q8" as0).tr, Ev.isSettle e = true →
      ∃ n, ∃ m2 ∈ wConsAz.delivered n,
        e = Ev.completed m2.gen m2.tag ∨ e = Ev.abandoned m2.gen m2.tag) :=
  c8_single_connection wConsAz as0 mStale true "q8" wAllOkR rs0 true true 0 4 true

/-! ## C2 -/

/-- One consume-loop iteration under healthy settle transport: handler
success completes the message, handler failure abandons it, and the step
returns normally with the state untouched. -/
theorem consumeStep_all_ok (w : Az.World) (m : Az.Msg) (s : Az.St)
    (hl : w.linkAlive m.gen = true) (hc : w.completeOk m = true)
    (ha : w.abandonOk m = true) :
    Az.consumeStep w m s = ⟨.ok (), s, Az.stepTr w m⟩ := by
  cases hh : w.hOk m <;>
    simp [Az.consumeStep, Az.complete_message, Az.abandon_message, Az.stepTr,
      hh, hl, hc, ha]

/-- The consume loop under healthy settle transport returns normally,
leaves the state untouched, and its trace is the concatenation of the
per-message step traces. -/
theorem consumeLoop_all_ok (w : Az.World) (ms : List Az.Msg) (s : Az.St)
    (h : ∀ m ∈ ms, w.linkAlive m.gen = true ∧ w.completeOk m = true ∧ w.abandonOk m = true) :
    Az.consumeLoop w ms s = ⟨.ok (), s, Az.traceOfMsgs w ms⟩ := by
  induction ms generalizing s with
  | nil => rfl
  | cons m rest ih =>
    obtain ⟨h1, h2, h3⟩ := h m (List.mem_cons_self m rest)
    have hstep := consumeStep_all_ok w m s h1 h2 h3
    have hrest := ih (fun m2 hm2 => h m2 (List.mem_cons_of_mem _ hm2)) (s := s)
    unfold Az.consumeLoop
    rw [hstep]
    simp [Az.traceOfMsgs, hrest]

/-- A step trace of a message with a different tag contains no
completion event for tag `t`. -/
theorem countP_stepTr_completed_ne (w : Az.World) (m : Az.Msg) (g t : Nat)
    (hne : m.tag ≠ t) :
    (Az.stepTr w m).countP (evEqCompleted g t) = 0 := by
  cases hh : w.hOk m <;>
    simp [Az.stepTr, hh, evEqCompleted, List.countP_cons, hne]

/-- A step trace of a message with a different tag contains no abandon
event for tag `t`. -/
theorem countP_stepTr_abandoned_ne (w : Az.World) (m : Az.Msg) (g t : Nat)
    (hne : m.tag ≠ t) :
    (Az.stepTr w m).countP (evEqAbandoned g t) = 0 := by
  cases hh : w.hOk m <;>
    simp [Az.stepTr, hh, evEqAbandoned, List.countP_cons, hne]

/-- A loop trace over messages none of which has tag `t` contains no
completion event for tag `t`. -/
theorem countP_traceOfMsgs_completed_zero (w : Az.World) (ms : List Az.Msg) (g t : Nat)
    (h : ∀ m ∈ ms, m.tag ≠ t) :
    (Az.traceOfMsgs w ms).countP (evEqCompleted g t) = 0 := by
  induction ms with
  | nil => rfl
  | cons m rest ih =>
    unfold Az.traceOfMsgs
    rw [List.countP_append,
      countP_stepTr_completed_ne w m g t (h m (List.mem_cons_self _ _)),
      ih (fun m2 hm2 => h m2 (List.mem_cons_of_mem _ hm2))]

/-- A loop trace over messages none of which has tag `t` contains no
abandon event for tag `t`. -/
theorem countP_traceOfMsgs_abandoned_zero (w : Az.World) (ms : List Az.Msg) (g t : Nat)
    (h : ∀ m ∈ ms, m.tag ≠ t) :
    (Az.traceOfMsgs w ms).countP (evEqAbandoned g t) = 0 := by
  induction ms with
  | nil => rfl
  | cons m rest ih =>
    unfold Az.traceOfMsgs
    rw [List.countP_append,
      countP_stepTr_abandoned_ne w m g t (h m (List.mem_cons_self _ _)),
      ih (fun m2 hm2 => h m2 (List.mem_cons_of_mem _ hm2))]

/-- With pairwise-distinct delivery tags, the loop trace contains the
completion of a delivered message exactly when its handler succeeded. -/
theorem countP_traceOfMsgs_completed (w : Az.World) (ms : List Az.Msg) (m : Az.Msg)
    (hnodup : (ms.map Az.Msg.tag).Nodup) (hm : m ∈ ms) :
    (Az.traceOfMsgs w ms).countP (evEqCompleted m.gen m.tag)
      = if w.hOk m then 1 else 0 := by
  induction ms with
  | nil => cases hm
  | cons m2 rest ih =>
    have hhead : m2.tag ∉ rest.map Az.Msg.tag := (List.nodup_cons.mp hnodup).1
    unfold Az.traceOfMsgs
    rw [List.countP_append]
    rcases List.mem_cons.mp hm with rfl | hmem
    · rw [countP_traceOfMsgs_completed_zero w rest m.gen m.tag
        (fun m3 hm3 he => hhead (he ▸ List.mem_map_of_mem Az.Msg.tag hm3))]
      cases hh : w.hOk m <;>
        simp [Az.stepTr, hh, evEqCompleted, List.countP_cons]
    · rw [countP_stepTr_completed_ne w m2 m.gen m.tag
        (fun he => hhead (he ▸ List.mem_map_of_mem Az.Msg.tag hmem)),
        ih (List.nodup_cons.mp hnodup).2 hmem]
      simp

/-- With pairwise-distinct delivery tags, the loop trace contains the
abandon of a delivered message exactly when its handler failed. -/
theorem countP_traceOfMsgs_abandoned (w : Az.World) (ms : List Az.Msg) (m : Az.Msg)
    (hnodup : (ms.map Az.Msg.tag).Nodup) (hm : m ∈ ms) :
    (Az.traceOfMsgs w ms).countP (evEqAbandoned m.gen m.tag)
      = if w.hOk m then 0 else 1 := by
  induction ms with
  | nil => cases hm
  | cons m2 rest ih =>
    have hhead : m2.tag ∉ rest.map Az.Msg.tag := (List.nodup_cons.mp hnodup).1
    unfold Az.traceOfMsgs
    rw [List.countP_append]
    rcases List.mem_cons.mp hm with rfl | hmem
    · rw [countP_traceOfMsgs_abandoned_zero w rest m.gen m.tag
        (fun m3 hm3 he => hhead (he ▸ List.mem_map_of_mem Az.Msg.tag hm3))]
      cases hh : w.hOk m <;>
        simp [Az.stepTr, hh, evEqAbandoned, List.countP_cons]
    · rw [countP_stepTr_abandoned_ne w m2 m.gen m.tag
        (fun he => hhead (he ▸ List.mem_map_of_mem Az.Msg.tag hmem)),
        ih (List.nodup_cons.mp hnodup).2 hmem]
      simp

/-- Running `start_consuming` on a connected client under healthy settle
transport: the first attempt returns normally (so the reconnect wrapper
adds nothing) and the trace is the declaration followed by the
per-message step traces. -/
theorem az_start_consuming_all_ok (w : Az.World) (q : String) (s : Az.St) (g : Nat)
    (hconn : s.conn = some g)
    (hacks : ∀ m2 ∈ w.delivered s.nSession,
      w.linkAlive m2.gen = true ∧ w.completeOk m2 = true ∧ w.abandonOk m2 = true) :
    (Az.start_consuming w q s).res = .ok () ∧
    (Az.start_consuming w q s).tr
      = .declared q :: Az.traceOfMsgs w (w.delivered s.nSession) := by
  have hloop := consumeLoop_all_ok w (w.delivered s.nSession)
    { s with service_callback_handler := true, nSession := s.nSession + 1 } hacks
  rw [hconn] at hloop
  constructor <;>
    simp [Az.start_consuming, reconnect_if_required, Az.startConsumingBody,
      az_make_queue_durable_eq, hconn, hloop]

/-- The RabbitMQ dispatch loop issues no settle of any kind. -/
theorem rmq_consumeDispatch_no_settle (hOk : Nat → Bool) (ts : List Nat) :
    ∀ s, ((Rmq.consumeDispatch hOk ts s).tr.countP Ev.isSettle) = 0 := by
  induction ts with
  | nil => intro s; rfl
  | cons t rest ih =>
    intro s
    unfold Rmq.consumeDispatch
    cases hh : hOk t <;> simp [hh, List.countP_cons, Ev.isSettle, ih s]

/-- The RabbitMQ `connect` issues no settle. -/
theorem rmq_connect_no_settle (w : Rmq.World) :
    ∀ s, ((Rmq.connect w s).tr.countP Ev.isSettle) = 0 := by
  intro s
  unfold Rmq.connect
  cases h : w.connectOk s.nConnect <;> simp [h, Ev.isSettle]

/-- The RabbitMQ `queue_declare` issues no settle. -/
theorem rmq_queue_declare_no_settle (w : Rmq.World) (q : String) :
    ∀ s, ((Rmq.queue_declare w q s).tr.countP Ev.isSettle) = 0 := by
  intro s
  unfold Rmq.queue_declare
  cases hc : s.channel with
  | none => simp
  | some c =>
    cases ho : c.isOpen with
    | false => simp [ho]
    | true => cases hd : w.declOk s.nDecl <;> simp [ho, hd, Ev.isSettle]

/-- The RabbitMQ `make_queue_durable` issues no settle. -/
theorem rmq_make_queue_durable_no_settle (w : Rmq.World) (q : String) :
    ∀ s, ((Rmq.make_queue_durable w q s).tr.countP Ev.isSettle) = 0 := by
  intro s
  exact Nat.le_zero.mp (countP_reconnect_le Ev.isSettle Err.isStreamLost (Rmq.connect w)
    (Rmq.queue_declare w q) 0 0
    (fun s2 => le_of_eq (rmq_queue_declare_no_settle w q s2))
    (fun s2 => le_of_eq (rmq_connect_no_settle w s2)) s)

/-- The body of the RabbitMQ `start_consuming` issues no settle. -/
theorem rmq_startConsumingBody_no_settle (w : Rmq.World) (hOk : Nat → Bool)
    (ts : List Nat) (q : String) :
    ∀ s, ((Rmq.startConsumingBody w hOk ts q s).tr.countP Ev.isSettle) = 0 := by
  intro s
  unfold Rmq.startConsumingBody
  cases hd : (Rmq.make_queue_durable w q s).res with
  | error e => simp [hd, rmq_make_queue_durable_no_settle w q s]
  | ok u =>
    cases hc : (Rmq.make_queue_durable w q s).st.channel with
    | none => simp [hd, hc, rmq_make_queue_durable_no_settle w q s]
    | some c =>
      cases ho : c.isOpen <;>
        simp [hd, hc, ho, List.countP_append, rmq_make_queue_durable_no_settle w q s,
          rmq_consumeDispatch_no_settle hOk ts]

/-- The RabbitMQ `start_consuming` issues no settle at all: with
`auto_ack=False` the client neither acknowledges nor rejects any
delivered message — settlement is delegated to the external callback. -/
theorem rmq_start_consuming_no_settle (w : Rmq.World) (hOk : Nat → Bool)
    (ts : List Nat) (q : String) :
    ∀ s, ((Rmq.start_consuming w hOk ts q s).tr.countP Ev.isSettle) = 0 :=
  fun s => Nat.le_zero.mp (countP_reconnect_le Ev.isSettle Err.isStreamLost (Rmq.connect w)
    (Rmq.startConsumingBody w hOk ts q) 0 0
    (fun s2 => le_of_eq (rmq_startConsumingBody_no_settle w hOk ts q s2))
    (fun s2 => le_of_eq (rmq_connect_no_settle w s2)) s)

/-- C2 counterexample: in the RabbitMQ variant the consume path settles
nothing.  With a callback that raises on the delivered message, the
exception propagates out of `start_consuming` (it is not a
`StreamLostError`) and the client issues no reject-with-requeue — zero
settle events — and with a callback that returns normally the client
likewise issues no acknowledgment: `basic_consume(..., auto_ack=False)`
delegates settlement entirely to the external callback, so the claim
fails on this variant. -/
theorem c2_counterexample :
    (Rmq.start_consuming wAllOkR (fun _ => false) [7] "qc2" rs0).res = .error .handlerErr ∧
    ((Rmq.start_consuming wAllOkR (fun _ => false) [7] "qc2" rs0).tr.countP Ev.isSettle) = 0 ∧
    ((Rmq.start_consuming wAllOkR (fun _ => true) [7] "qc2" rs0).tr.countP Ev.isSettle) = 0 :=
  ⟨rfl, rfl, rfl⟩

/-- C2 (amended): in the Azure variant the claim holds — in the consume
loop started by `start_consuming` on a connected client, with
pairwise-distinct delivery tags and a transport that accepts the settle
operations, every delivered message whose handler succeeds is completed
(acknowledged) exactly once and abandoned never, every delivered message
whose handler fails is abandoned (rejected-with-requeue) exactly once
and completed never, and in either case the message receives exactly one
settle, never silently dropped.  In the RabbitMQ variant it does not
hold: `start_consuming` registers the callback with `auto_ack=False` and
the client itself issues no acknowledgment and no reject whatsoever —
its trace contains zero settle events for any callback outcome, any
delivery list and any state; settlement is delegated entirely to the
externally supplied callback and a callback exception propagates with
the message neither acked nor rejected by the client. -/
theorem c2_consume_ack_per_message (w : Az.World) (q : String) (s : Az.St) (g : Nat)
    (m : Az.Msg) (wr : Rmq.World) (hOk2 : Nat → Bool) (ts : List Nat) (q2 : String)
    (sr : Rmq.St)
    (hconn : s.conn = some g)
    (hacks : ∀ m2 ∈ w.delivered s.nSession,
      w.linkAlive m2.gen = true ∧ w.completeOk m2 = true ∧ w.abandonOk m2 = true)
    (hnodup : ((w.delivered s.nSession).map Az.Msg.tag).Nodup)
    (hm : m ∈ w.delivered s.nSession) :
    (Az.start_consuming w q s).res = .ok () ∧
    ((Az.start_consuming w q s).tr.countP (evEqCompleted m.gen m.tag)
      = if w.hOk m then 1 else 0) ∧
    ((Az.start_consuming w q s).tr.countP (evEqAbandoned m.gen m.tag)
      = if w.hOk m then 0 else 1) ∧
    ((Az.start_consuming w q s).tr.countP (evEqCompleted m.gen m.tag)
      + (Az.start_consuming w q s).tr.countP (evEqAbandoned m.gen m.tag) = 1) ∧
    ((Rmq.start_consuming wr hOk2 ts q2 sr).tr.countP Ev.isSettle) = 0 := by
  obtain ⟨hres, htr⟩ := az_start_consuming_all_ok w q s g hconn hacks
  have hc := countP_traceOfMsgs_completed w (w.delivered s.nSession) m hnodup hm
  have ha := countP_traceOfMsgs_abandoned w (w.delivered s.nSession) m hnodup hm
  refine ⟨hres, ?_, ?_, ?_, rmq_start_consuming_no_settle wr hOk2 ts q2 sr⟩ <;>
    cases hh : w.hOk m <;>
      simp [htr, List.countP_cons, evEqCompleted, evEqAbandoned, hc, ha, hh]

/-- C2 witness: the statement for the first delivered message of a
concrete two-message Azure session whose handlers succeed on even tags,
together with a concrete RabbitMQ consume session. -/
theorem c2_consume_ack_per_message_witness :
    (Az.start_consuming wConsAz "q" as0).res = .ok () ∧
    ((Az.start_consuming wConsAz "q" as0).tr.countP (evEqCompleted (0 : Nat) (0 : Nat))
      = if wConsAz.hOk ⟨0, 0⟩ then 1 else 0) ∧
    ((Az.start_consuming wConsAz "q" as0).tr.countP (evEqAbandoned (0 : Nat) (0 : Nat))
      = if wConsAz.hOk ⟨0, 0⟩ then 0 else 1) ∧
    ((Az.start_consuming wConsAz "q" as0).tr.countP (evEqCompleted (0 : Nat) (0 : Nat))
      + (Az.start_consuming wConsAz "q" as0).tr.countP (evEqAbandoned (0 : Nat) (0 : Nat)) = 1) ∧
    ((Rmq.start_consuming wAllOkR (fun _ => true) [3] "qw2" rs0).tr.countP Ev.isSettle) = 0 :=
  c2_consume_ack_per_message wConsAz "q" as0 0 ⟨0, 0⟩ wAllOkR (fun _ => true) [3] "qw2" rs0
    rfl (by decide) (by decide) (by decide)

/-! ## C10 -/

/-- Event-count bound through sequential composition. -/
theorem countP_andThen_le {σ : Type} (p : Ev → Bool) (a b : σ → Res σ) (ca cb : Nat)
    (ha : ∀ s, ((a s).tr.countP p) ≤ ca) (hb : ∀ s, ((b s).tr.countP p) ≤ cb) :
    ∀ s, ((andThen a b s).tr.countP p) ≤ ca + cb := by
  intro s
  unfold andThen
  cases h : (a s).res with
  | error e =>
    have := ha s
    simp [h]
    omega
  | ok u =>
    have h1 := ha s
    have h2 := hb (a s).st
    simp [h, List.countP_append]
    omega

/-- A `connect` call makes exactly one connection attempt and no declare
attempt. -/
theorem rmq_connect_counts (w : Rmq.World) :
    ∀ s, ((Rmq.connect w s).tr.countP Ev.isConnectCall) ≤ 1
      ∧ ((Rmq.connect w s).tr.countP Ev.isDeclAttempt) ≤ 0 := by
  intro s
  unfold Rmq.connect
  cases h : w.connectOk s.nConnect <;> simp [h, Ev.isConnectCall, Ev.isDeclAttempt]

/-- A `queue_declare` call makes no connection attempt and at most one
declare attempt. -/
theorem rmq_queue_declare_counts (w : Rmq.World) (q : String) :
    ∀ s, ((Rmq.queue_declare w q s).tr.countP Ev.isConnectCall) ≤ 0
      ∧ ((Rmq.queue_declare w q s).tr.countP Ev.isDeclAttempt) ≤ 1 := by
  intro s
  unfold Rmq.queue_declare
  cases hc : s.channel with
  | none => simp
  | some c =>
    cases ho : c.isOpen with
    | false => simp [ho]
    | true =>
      cases hd : w.declOk s.nDecl <;> simp [ho, hd, Ev.isConnectCall, Ev.isDeclAttempt]

/-- A `basic_publish` call makes no connection and no declare attempt. -/
theorem rmq_basic_publish_counts (w : Rmq.World) (q m : String) :
    ∀ s, ((Rmq.basic_publish w q m s).tr.countP Ev.isConnectCall) ≤ 0
      ∧ ((Rmq.basic_publish w q m s).tr.countP Ev.isDeclAttempt) ≤ 0 := by
  intro s
  unfold Rmq.basic_publish
  cases hc : s.channel with
  | none => simp
  | some c =>
    cases ho : c.isOpen with
    | false => simp [ho]
    | true =>
      cases hd : w.pubOk s.nPub <;> simp [ho, hd, Ev.isConnectCall, Ev.isDeclAttempt]

/-- A RabbitMQ `make_queue_durable` call makes at most one connection
attempt and at most two declare attempts. -/
theorem rmq_make_queue_durable_counts (w : Rmq.World) (q : String) :
    ∀ s, ((Rmq.make_queue_durable w q s).tr.countP Ev.isConnectCall) ≤ 1
      ∧ ((Rmq.make_queue_durable w q s).tr.countP Ev.isDeclAttempt) ≤ 2 := by
  intro s
  constructor
  · exact countP_reconnect_le Ev.isConnectCall Err.isStreamLost (Rmq.connect w)
      (Rmq.queue_declare w q) 0 1
      (fun s2 => (rmq_queue_declare_counts w q s2).1)
      (fun s2 => (rmq_connect_counts w s2).1) s
  · exact countP_reconnect_le Ev.isDeclAttempt Err.isStreamLost (Rmq.connect w)
      (Rmq.queue_declare w q) 1 0
      (fun s2 => (rmq_queue_declare_counts w q s2).2)
      (fun s2 => (rmq_connect_counts w s2).2) s

/-- The body of RabbitMQ `send` makes at most one connection attempt and
at most two declare attempts. -/
theorem rmq_sendBody_counts (w : Rmq.World) (q m : String) :
    ∀ s, ((Rmq.sendBody w q m s).tr.countP Ev.isConnectCall) ≤ 1
      ∧ ((Rmq.sendBody w q m s).tr.countP Ev.isDeclAttempt) ≤ 2 := by
  intro s
  unfold Rmq.sendBody
  cases he : q.isEmpty with
  | true => simp [he]
  | false =>
    simp only [he, Bool.false_eq_true, if_false]
    constructor
    · exact countP_andThen_le Ev.isConnectCall (Rmq.make_queue_durable w q)
        (Rmq.basic_publish w q m) 1 0
        (fun s2 => (rmq_make_queue_durable_counts w q s2).1)
        (fun s2 => (rmq_basic_publish_counts w q m s2).1) s
    · exact countP_andThen_le Ev.isDeclAttempt (Rmq.make_queue_durable w q)
        (Rmq.basic_publish w q m) 2 0
        (fun s2 => (rmq_make_queue_durable_counts w q s2).2)
        (fun s2 => (rmq_basic_publish_counts w q m s2).2) s

/-- C10: because the retry wrapper on `make_queue_durable` nests inside
the retry wrapper on `send`, a RabbitMQ `send` call can invoke
`connect()` up to three times and attempt the declaration up to four
times — a fixed finite bound holding for every transport behaviour and
start state — and with a declaration that keeps failing with
`StreamLostError` both bounds are reached exactly before the transport
error reaches the caller. -/
theorem c10_nested_retry_bound :
    (∀ (w : Rmq.World) (q m : String) (s : Rmq.St),
        ((Rmq.send w q m s).tr.countP Ev.isConnectCall) ≤ 3 ∧
        ((Rmq.send w q m s).tr.countP Ev.isDeclAttempt) ≤ 4) ∧
    (Rmq.send wBadDecl "q10" "m10" rs0).res = .error .streamLost ∧
    ((Rmq.send wBadDecl "q10" "m10" rs0).tr.countP Ev.isConnectCall) = 3 ∧
    ((Rmq.send wBadDecl "q10" "m10" rs0).tr.countP Ev.isDeclAttempt) = 4 := by
  refine ⟨fun w q m s => ⟨?_, ?_⟩, rfl, rfl, rfl⟩
  · exact countP_reconnect_le Ev.isConnectCall Err.isStreamLost (Rmq.connect w)
      (Rmq.sendBody w q m) 1 1
      (fun s2 => (rmq_sendBody_counts w q m s2).1)
      (fun s2 => (rmq_connect_counts w s2).1) s
  · exact countP_reconnect_le Ev.isDeclAttempt Err.isStreamLost (Rmq.connect w)
      (Rmq.sendBody w q m) 2 0
      (fun s2 => (rmq_sendBody_counts w q m s2).2)
      (fun s2 => (rmq_connect_counts w s2).2) s
